import Mathlib

/- Verification of the certdx client core (pkg/client/client.go and
pkg/client/sds.go): the per-certificate watch loop, the polling transport
with main/standby failover, and the streaming secret-discovery client with
its failover orchestration.  Go byte slices are modelled as `List Nat`,
`time.Duration` values as nanosecond counts (`Nat`), and wall-clock instants
as second counts (`Nat`). -/

namespace Certdx

/-- The `certData` record (client.go): domains plus full chain and key bytes. -/
structure CertData where
  domains : List String
  fullchain : List Nat
  key : List Nat
deriving DecidableEq

/-- The part of `watchingCert` (client.go) the watch loop reads and mutates:
the held material and the ordered list of registered update handlers.
Handlers are opaque values of a type `H`; the embedding records their
invocation (with the arguments passed) instead of running Go side effects. -/
structure WatchingCert (H : Type) where
  data : CertData
  handlers : List H
deriving DecidableEq

/-- Observable events of one iteration of `watchingCert.watch`
(client.go 46-56) handling a `certData` arrival on the update channel, in
program order. -/
inductive WatchEvent (H : Type) where
  | changedLog (domains : List String)
  | replaced (fullchain key : List Nat)
  | invoked (h : H) (fullchain key : List Nat)
  | notChangedLog (domains : List String)
deriving DecidableEq

/-- One arrival on `UpdateChan` as handled by `watchingCert.watch`
(client.go 46-56): if chain or key bytes differ from the held material the
loop logs the change, assigns the new chain and key into `c.Data`, then
invokes every handler in `c.UpdateHandlers` in order with
`c.Data.Fullchain, c.Data.Key` (the just-assigned values); otherwise it only
logs that the certificate has not changed. -/
def watchStep {H : Type} (c : WatchingCert H) (newCert : CertData) :
    WatchingCert H × List (WatchEvent H) :=
  if c.data.fullchain = newCert.fullchain ∧ c.data.key = newCert.key then
    (c, [.notChangedLog newCert.domains])
  else
    let data' : CertData :=
      { c.data with fullchain := newCert.fullchain, key := newCert.key }
    ({ c with data := data' },
      .changedLog newCert.domains
        :: .replaced newCert.fullchain newCert.key
        :: c.handlers.map (fun h => .invoked h data'.fullchain data'.key))

/-- Projects a handler-invocation event to its handler and arguments. -/
def invokeArgs {H : Type} : WatchEvent H → Option (H × List Nat × List Nat)
  | .invoked h fc k => some (h, fc, k)
  | _ => none

/-- Whether an event is a handler invocation. -/
def isInvoke {H : Type} : WatchEvent H → Bool
  | .invoked _ _ _ => true
  | _ => false

/-- Checks that no handler-invocation event occurs after a replacement
event, i.e. the held material is replaced only after the handlers ran. -/
def invocationsBeforeReplacement {H : Type} : List (WatchEvent H) → Bool
  | [] => true
  | .replaced _ _ :: rest => rest.all (fun e => !(isInvoke e))
  | _ :: rest => invocationsBeforeReplacement rest

/-- Claim C2 as stated, for one arrival of differing material: every
registered handler is invoked exactly once, in registration order, against
the new material, and the held material is replaced only after all handlers
have run. -/
def claimC2 {H : Type} (c : WatchingCert H) (newCert : CertData) : Prop :=
  (watchStep c newCert).2.filterMap invokeArgs
      = c.handlers.map (fun h => (h, newCert.fullchain, newCert.key)) ∧
    invocationsBeforeReplacement (watchStep c newCert).2 = true

/-- C1: when the arriving material equals the held material byte-for-byte in
both chain and key, the watch loop changes no state and invokes no handler;
the only effect is the "not changed" log line. -/
theorem watch_identical_noop {H : Type} (c : WatchingCert H) (newCert : CertData)
    (hfc : newCert.fullchain = c.data.fullchain) (hk : newCert.key = c.data.key) :
    watchStep c newCert = (c, [.notChangedLog newCert.domains]) := by
  unfold watchStep
  rw [if_pos ⟨hfc.symm, hk.symm⟩]

/-- Witness for C1 at concrete material. -/
theorem watch_identical_noop_witness :
    watchStep (H := Nat) ⟨⟨["example.com"], [1, 2], [3]⟩, [0]⟩ ⟨["example.com"], [1, 2], [3]⟩
      = (⟨⟨["example.com"], [1, 2], [3]⟩, [0]⟩,
         [.notChangedLog ["example.com"]]) :=
  watch_identical_noop ⟨⟨["example.com"], [1, 2], [3]⟩, [0]⟩
    ⟨["example.com"], [1, 2], [3]⟩ rfl rfl

/-- Counterexample to C2 as stated: with one registered handler and material
differing in the chain, the watch loop assigns the new chain and key into
the held `c.Data` *before* invoking the handler, so the replacement does not
come after all handler invocations. -/
theorem watch_replace_order_cex :
    ¬ claimC2 (H := Nat) ⟨⟨["example.com"], [1], [2]⟩, [0]⟩ ⟨["example.com"], [9], [2]⟩ := by
  intro h
  exact absurd h.2 (by decide)

/-- C2 amended: on differing material every registered handler is invoked
exactly once, in registration order, against the new material — but the held
material is replaced *before* the handlers run (the handlers receive the
just-assigned new chain and key); the held domain list is unchanged. -/
theorem watch_changed_amended {H : Type} (c : WatchingCert H) (newCert : CertData)
    (hne : ¬ (c.data.fullchain = newCert.fullchain ∧ c.data.key = newCert.key)) :
    (watchStep c newCert).1
        = { c with data :=
              { c.data with fullchain := newCert.fullchain, key := newCert.key } } ∧
      (watchStep c newCert).2
        = .changedLog newCert.domains
            :: .replaced newCert.fullchain newCert.key
            :: c.handlers.map (fun h => .invoked h newCert.fullchain newCert.key) := by
  unfold watchStep
  rw [if_neg hne]
  exact ⟨rfl, rfl⟩

/-- Witness for the amended C2 at concrete material. -/
theorem watch_changed_amended_witness :
    (watchStep (H := Nat) ⟨⟨["example.com"], [1], [2]⟩, [7]⟩ ⟨["example.com"], [9], [2]⟩).2
      = [.changedLog ["example.com"], .replaced [9] [2], .invoked 7 [9] [2]] :=
  (watch_changed_amended ⟨⟨["example.com"], [1], [2]⟩, [7]⟩ ⟨["example.com"], [9], [2]⟩
    (by decide)).2

/-- The `types.HttpCertResp` record: a polling-protocol response carrying chain and key
bytes, the renewal lead time (`RenewTimeLeft`, a Go `time.Duration` in
nanoseconds) and an optional server-reported error string. -/
structure HttpCertResp where
  fullChain : List Nat
  key : List Nat
  renewTimeLeft : Nat
  err : String
deriving DecidableEq

/-- One hour in nanoseconds, the initial `sleepTime` of `certWatchDog`
(client.go 148: `sleepTime := 1 * time.Hour`). -/
def hourNs : Nat := 3600000000000

/-- Modelled from the spec: `utils.Retry` (pkg/utils) is not among the
provided sources; §4.1 says: given a non-negative attempt budget N and a
fallible operation, execute it up to N+1 times, returning on first success;
if all attempts fail, return the last error.  The operation's successive
outcomes are supplied as a stream `attempts`; `n` counts the remaining
retries and `i` the next attempt index. -/
def retryFrom (attempts : Nat → Except String HttpCertResp) :
    Nat → Nat → Except String HttpCertResp
  | 0, i => attempts i
  | n + 1, i =>
    match attempts i with
    | .ok r => .ok r
    | .error _ => retryFrom attempts n (i + 1)

/-- Modelled from the spec: `utils.Retry n op` executes `op` up to `n + 1`
times, returning on first success, else the last error. -/
def retry (n : Nat) (attempts : Nat → Except String HttpCertResp) :
    Except String HttpCertResp :=
  retryFrom attempts n 0

/-- The `CertDXClientDaemon.requestCert` call (client.go 119-145): retry the main
server with budget `retryCount`; on exhaustion, if the standby server URL is
non-empty, retry the standby with the same budget; `none` models the `nil`
returned when both exhaust.  The successive outcomes of the main and standby
calls are supplied as `mainAttempts` and `standbyAttempts`. -/
def requestCert (retryCount : Nat) (standbyUrl : String)
    (mainAttempts standbyAttempts : Nat → Except String HttpCertResp) :
    Option HttpCertResp :=
  match retry retryCount mainAttempts with
  | .ok r => some r
  | .error _ =>
    if standbyUrl = "" then none
    else
      match retry retryCount standbyAttempts with
      | .ok r => some r
      | .error _ => none

/-- Observable effects of one `certWatchDog` cycle besides sleeping. -/
inductive WatchDogEvent where
  | pushed (d : CertData)
  | serverErrLog (e : String)
  | requestFailedLog
deriving DecidableEq

/-- One cycle of `CertDXClientDaemon.certWatchDog` (client.go 149-172) after
the request came back as `resp`: on a response without a server-reported
error, set `sleepTime` to `RenewTimeLeft / 4` and push the material onto the
certificate's update channel; on a server-reported error, log it; on `nil`
(both servers exhausted), log the failure.  In the last two cases
`sleepTime` is left unchanged.  The cycle then sleeps the resulting
`sleepTime`. -/
def certWatchDogStep (domains : List String) (sleepTime : Nat)
    (resp : Option HttpCertResp) : Nat × List WatchDogEvent :=
  match resp with
  | some r =>
    if r.err = "" then
      (r.renewTimeLeft / 4, [.pushed ⟨domains, r.fullChain, r.key⟩])
    else
      (sleepTime, [.serverErrLog r.err])
  | none => (sleepTime, [.requestFailedLog])

/-- The sleep durations of successive `certWatchDog` cycles, starting from
`sleepTime`, when the successive request results are `resps`.  Each cycle
sleeps the `sleepTime` resulting from its own step (client.go 166 evaluates
`time.After(sleepTime)` after the update). -/
def watchDogSleeps (domains : List String) (sleepTime : Nat) :
    List (Option HttpCertResp) → List Nat
  | [] => []
  | r :: rest =>
    let st' := (certWatchDogStep domains sleepTime r).1
    st' :: watchDogSleeps domains st' rest

/-- The interval the amended C3 predicts after processing `resps` from a
current interval `sleepTime`: unchanged by failures and server-reported
errors, set to `RenewTimeLeft / 4` by each successful response. -/
def intervalAfter (sleepTime : Nat) (resps : List (Option HttpCertResp)) : Nat :=
  resps.foldl
    (fun acc r =>
      match r with
      | some resp => if resp.err = "" then resp.renewTimeLeft / 4 else acc
      | none => acc)
    sleepTime

/-- Claim C3's fallback-interval part as stated: in a `certWatchDog` run every
cycle whose request failed on both servers is retried after the fixed
fallback interval of one hour. -/
def fallbackAlwaysOneHour (domains : List String)
    (resps : List (Option HttpCertResp)) : Prop :=
  ∀ p ∈ (resps.zip (watchDogSleeps domains hourNs resps)), p.1 = none → p.2 = hourNs

/-- Counterexample to C3 as stated: after a successful response with an 8-hour
renewal lead time sets the interval to 2 hours, a cycle on which both servers
exhaust is retried after 2 hours, not after the fixed 1-hour fallback. -/
theorem polling_fallback_fixed_hour_cex :
    ¬ fallbackAlwaysOneHour ["example.com"]
        [some ⟨[1], [2], 8 * hourNs, ""⟩, none] := by
  intro h
  exact absurd (h (none, 2 * hourNs) (by decide) rfl) (by decide)

/-- C3 amended: each cycle attempts the main server with the configured retry
budget, then, on exhaustion and only when the standby URL is non-empty, the
standby with the same budget; when both exhaust the cycle reports failure and
is retried after the *current* interval, which starts at 1 hour and is
thereafter the renewal lead time divided by 4 of the most recent successful
response (a 4-hour lead time schedules the next poll at 1 hour); each cycle's
sleep equals the interval determined by the responses seen so far. -/
theorem polling_failover_amended (rc : Nat) (url : String)
    (mainA sbA : Nat → Except String HttpCertResp)
    (domains : List String) (resps : List (Option HttpCertResp)) :
    (∀ r, retry rc mainA = .ok r → requestCert rc url mainA sbA = some r) ∧
      (∀ e, retry rc mainA = .error e → url = "" →
        requestCert rc url mainA sbA = none) ∧
      (∀ e, retry rc mainA = .error e → url ≠ "" →
        requestCert rc url mainA sbA = (retry rc sbA).toOption) ∧
      (∀ st r, r.err = "" →
        certWatchDogStep domains st (some r)
          = (r.renewTimeLeft / 4, [.pushed ⟨domains, r.fullChain, r.key⟩])) ∧
      (∀ st, certWatchDogStep domains st none = (st, [.requestFailedLog])) ∧
      ∀ i, i < resps.length →
        (watchDogSleeps domains hourNs resps).get? i
          = some (intervalAfter hourNs (resps.take (i + 1))) := by
  refine ⟨?_, ?_, ?_, ?_, ?_, ?_⟩
  · intro r h
    simp [requestCert, h]
  · intro e h hu
    simp [requestCert, h, hu]
  · intro e h hu
    cases hsb : retry rc sbA <;> simp [requestCert, h, hu, hsb, Except.toOption]
  · intro st r h
    simp [certWatchDogStep, h]
  · intro st
    rfl
  · have key : ∀ (l : List (Option HttpCertResp)) (st : Nat) (i : Nat), i < l.length →
        (watchDogSleeps domains st l).get? i = some (intervalAfter st (l.take (i + 1))) := by
      intro l
      induction l with
      | nil => intro st i h; exact absurd h (by simp)
      | cons r rest ih =>
        intro st i h
        cases i with
        | zero =>
          cases r with
          | none => simp [watchDogSleeps, intervalAfter, certWatchDogStep]
          | some resp =>
            by_cases he : resp.err = "" <;>
              simp [watchDogSleeps, intervalAfter, certWatchDogStep, he]
        | succ j =>
          have hj : j < rest.length := by simpa using h
          have := ih ((certWatchDogStep domains st r).1) j hj
          simp only [watchDogSleeps, List.get?, List.take] at this ⊢
          rw [this]
          cases r with
          | none => rfl
          | some resp =>
            by_cases he : resp.err = "" <;>
              simp [intervalAfter, certWatchDogStep, he]
    exact key resps hourNs

/-- Witness for the amended C3: with both servers down the cycle yields no
response; a success with chain `"C1"`, key `"K1"` and a 4-hour lead time
pushes the material and schedules the next poll at 1 hour. -/
theorem polling_failover_amended_witness :
    requestCert 0 "" (fun _ => .error "down") (fun _ => .error "down") = none ∧
      certWatchDogStep ["example.com"] hourNs (some ⟨[67, 49], [75, 49], 4 * hourNs, ""⟩)
        = (hourNs, [.pushed ⟨["example.com"], [67, 49], [75, 49]⟩]) ∧
      (watchDogSleeps ["example.com"] hourNs
          [some ⟨[67, 49], [75, 49], 4 * hourNs, ""⟩]).get? 0 = some hourNs := by
  have h := polling_failover_amended 0 "" (fun _ => .error "down") (fun _ => .error "down")
    ["example.com"] [some ⟨[67, 49], [75, 49], 4 * hourNs, ""⟩]
  refine ⟨h.2.1 "down" rfl rfl, ?_, ?_⟩
  · have h4 := h.2.2.2.1 hourNs ⟨[67, 49], [75, 49], 4 * hourNs, ""⟩ rfl
    rw [h4]
    norm_num [hourNs]
  · have h0 := h.2.2.2.2.2 0 (by decide)
    rw [h0]
    norm_num [intervalAfter, hourNs]

/-- Result of one `Stream` call as observed by the orchestration loops in
`GRPCMain` (client.go 220-233, 247-257): the killed sentinel, any other
error, or a `nil` return (handled by the loops, though `Stream` in practice
always returns a non-nil result). -/
inductive StreamOutcome where
  | killedSentinel
  | otherErr
  | noErr
deriving DecidableEq

/-- What an orchestration-loop iteration does next. -/
inductive LoopAction where
  | exitLoop
  | restartImmediately
  | reconnectAfterSleep (seconds : Nat)
  | exhaustedWait (startStandby : Bool)
deriving DecidableEq

/-- Counter and action resulting from one loop iteration. -/
structure LoopIterResult where
  retryCount : Nat
  action : LoopAction
deriving DecidableEq

/-- One iteration of the gRPC main-stream loop (client.go 216-281):
`attemptStart` is the `startTime := time.Now()` taken at the top of this
iteration, `endTime` the instant `Stream` returned (seconds).  A killed
result returns from the goroutine; any other error increments the counter if
the attempt ended within 5 minutes of `attemptStart`, otherwise resets it to
zero and continues immediately; then, if the counter is below the budget the
loop sleeps 15 seconds and reconnects, and otherwise it starts the standby
loop (when one is configured and not running), resets the counter and waits
for the reconnect interval. -/
def mainLoopIter (budget : Nat) (standbyExists standbyRunning : Bool)
    (retryCount : Nat) (attemptStart endTime : Nat) (outcome : StreamOutcome) :
    LoopIterResult :=
  match outcome with
  | .killedSentinel => ⟨retryCount, .exitLoop⟩
  | .otherErr =>
    if endTime < attemptStart + 300 then
      if retryCount + 1 < budget then ⟨retryCount + 1, .reconnectAfterSleep 15⟩
      else ⟨0, .exhaustedWait (standbyExists && !standbyRunning)⟩
    else ⟨0, .restartImmediately⟩
  | .noErr =>
    if retryCount < budget then ⟨retryCount, .reconnectAfterSleep 15⟩
    else ⟨0, .exhaustedWait (standbyExists && !standbyRunning)⟩

/-- One iteration of the gRPC standby-stream loop (client.go 242-266).
Unlike the main loop, its `startTime` is taken once, before the loop
(client.go 243), so `loopStart` is the same for every iteration; and the
5-minute window check is applied to every non-killed result. -/
def standbyLoopIter (budget : Nat) (retryCount : Nat) (loopStart endTime : Nat)
    (outcome : StreamOutcome) : LoopIterResult :=
  match outcome with
  | .killedSentinel => ⟨retryCount, .exitLoop⟩
  | _ =>
    if endTime < loopStart + 300 then
      if retryCount + 1 < budget then ⟨retryCount + 1, .reconnectAfterSleep 15⟩
      else ⟨0, .exhaustedWait false⟩
    else ⟨0, .restartImmediately⟩

/-- Claim C4 as stated, for the standby loop: with the attempt cycle's start
being the standby attempt's own start time (`attemptStart`, with
`loopStart ≤ attemptStart ≤ endTime`), a non-killed error ending within 5
minutes of it is counted (the counter is incremented, or the incremented
counter reached the budget and the loop moves to the exhausted wait), and one
ending after it resets the counter to zero and restarts immediately. -/
def claimC4Standby : Prop :=
  ∀ budget rc loopStart attemptStart endTime,
    loopStart ≤ attemptStart → attemptStart ≤ endTime →
    (endTime < attemptStart + 300 →
      (standbyLoopIter budget rc loopStart endTime .otherErr).retryCount = rc + 1 ∨
      (standbyLoopIter budget rc loopStart endTime .otherErr).action
        = .exhaustedWait false) ∧
    (attemptStart + 300 ≤ endTime →
      standbyLoopIter budget rc loopStart endTime .otherErr = ⟨0, .restartImmediately⟩)

/-- Claim C4 as stated, for the main loop: same property, where the attempt
cycle's start is the `startTime` taken at the top of the iteration. -/
def claimC4Main : Prop :=
  ∀ budget se sr rc attemptStart endTime,
    (endTime < attemptStart + 300 →
      (mainLoopIter budget se sr rc attemptStart endTime .otherErr).retryCount = rc + 1 ∨
      (mainLoopIter budget se sr rc attemptStart endTime .otherErr).action
        = .exhaustedWait (se && !sr)) ∧
    (attemptStart + 300 ≤ endTime →
      mainLoopIter budget se sr rc attemptStart endTime .otherErr
        = ⟨0, .restartImmediately⟩)

/-- Counterexample to C4 as stated: in the standby loop the 5-minute window
is anchored at the loop's start, not at the current attempt's start.  A
standby attempt starting 600 s after the loop started and erroring 60 s later
(well within 5 minutes of its own start) is not counted: the counter is reset
to zero and the loop restarts immediately. -/
theorem retry_window_standby_cex : ¬ (claimC4Main ∧ claimC4Standby) := by
  intro h
  have h600 := (h.2 10 0 0 600 660 (by decide) (by decide)).1 (by decide)
  exact absurd h600 (by decide)

/-- C4 amended: both loops count a non-killed error only while the attempt
ended within the 5-minute window, and once the window has elapsed they reset
the counter to zero and restart immediately without consulting the retry
threshold — but the window is anchored differently: the main loop measures it
from the current attempt's start (taken anew each iteration), while the
standby loop measures it from the standby loop's start, taken once, so the
standby window never restarts. -/
theorem retry_window_amended :
    claimC4Main ∧
      ∀ budget rc loopStart endTime,
        (endTime < loopStart + 300 →
          (standbyLoopIter budget rc loopStart endTime .otherErr).retryCount = rc + 1 ∨
          (standbyLoopIter budget rc loopStart endTime .otherErr).action
            = .exhaustedWait false) ∧
        (loopStart + 300 ≤ endTime →
          standbyLoopIter budget rc loopStart endTime .otherErr
            = ⟨0, .restartImmediately⟩) := by
  constructor
  · intro budget se sr rc s e
    constructor
    · intro hlt
      by_cases hb : rc + 1 < budget <;>
        simp [mainLoopIter, hlt, hb]
    · intro hge
      have : ¬ e < s + 300 := by omega
      simp [mainLoopIter, this]
  · intro budget rc ls e
    constructor
    · intro hlt
      by_cases hb : rc + 1 < budget <;>
        simp [standbyLoopIter, hlt, hb]
    · intro hge
      have : ¬ e < ls + 300 := by omega
      simp [standbyLoopIter, this]

/-- Witness for the amended C4: a main-loop error inside the window counts;
a standby-loop error past the window resets the counter and restarts. -/
theorem retry_window_amended_witness :
    ((mainLoopIter 10 true false 0 0 60 .otherErr).retryCount = 1 ∨
      (mainLoopIter 10 true false 0 0 60 .otherErr).action = .exhaustedWait true) ∧
      standbyLoopIter 10 0 0 660 .otherErr = ⟨0, .restartImmediately⟩ := by
  have h := retry_window_amended
  refine ⟨?_, (h.2 10 0 0 660).2 (by decide)⟩
  have := (h.1 10 true false 0 0 60).1 (by decide)
  simpa using this

/-- Which case the final `select` of `Stream` (sds.go 217-227) takes when the
call gets that far. -/
inductive StreamFinal where
  | ctxDone
  | errChanErr
  | killSignal
deriving DecidableEq

/-- The result `Stream` returns, at the granularity the orchestration loops
distinguish: the killed sentinel (`*killed`), the connection-establishment
error (`new grpc client failed`), the stream-setup error
(`stream secrets failed`), or the stream-level error from `ctx.Err()` or the
shared error channel. -/
inductive StreamRes where
  | killedSentinel
  | connectError
  | setupError
  | streamError
deriving DecidableEq

/-- What one call to `CertDXgRPCClient.Stream` leaves behind. -/
structure StreamRunResult where
  running : Bool
  result : StreamRes
  bodyStarted : Bool
deriving DecidableEq

/-- Sequential control flow of `CertDXgRPCClient.Stream` (sds.go 89-228) with
respect to the `Running` flag.  In order: a non-blocking check of the
one-shot `Kill` channel returns the killed sentinel at once;
`c.Running.Store(true)`; `grpc.NewClient` — on failure `Stream` returns
*before* the `defer` that closes the connection and stores `Running = false`
is registered (sds.go 105-111), so the flag stays `true`; then
`StreamSecrets` and, if that also succeeds, the receiver/sender goroutines
start (`bodyStarted`) and the call blocks in the final `select`.
`killPending` is whether a kill was already buffered, `running0` the flag's
value on entry, and the returned `running` the flag's value after `Stream`
has returned. -/
def streamRun (killPending connectOk setupOk : Bool) (final : StreamFinal)
    (running0 : Bool) : StreamRunResult :=
  if killPending then ⟨running0, .killedSentinel, false⟩
  else if !connectOk then ⟨true, .connectError, false⟩
  else if !setupOk then ⟨false, .setupError, false⟩
  else
    match final with
    | .ctxDone => ⟨false, .streamError, true⟩
    | .errChanErr => ⟨false, .streamError, true⟩
    | .killSignal => ⟨false, .killedSentinel, true⟩

/-- C9 (code bug): when `grpc.NewClient` fails, `Stream` returns with
`Running` still `true` — the `defer` that resets the flag is registered only
after the error return — so the orchestrator's check that standby is not
already running is wrong from then on; the claim says the flag is false again
whenever `Stream` has returned, by any path including a
connection-establishment failure. -/
theorem running_flag_connect_failure :
    (streamRun false false true .ctxDone false).running = true ∧
      (streamRun false true true .ctxDone false).running = false ∧
      (streamRun false true false .ctxDone false).running = false := by
  decide

/-- Claim C5 as stated: `Stream` honours a pending kill before doing anything
else; a killed result makes either loop exit with no retry; and any other
error whose resulting counter is below the retry budget triggers the
15-second-sleep reconnect. -/
def claimC5 : Prop :=
  (∀ cOk sOk f r0, streamRun true cOk sOk f r0 = ⟨r0, .killedSentinel, false⟩) ∧
    (∀ budget se sr rc s e,
      (mainLoopIter budget se sr rc s e .killedSentinel).action = .exitLoop) ∧
    (∀ budget rc ls e,
      (standbyLoopIter budget rc ls e .killedSentinel).action = .exitLoop) ∧
    ∀ budget se sr rc s e,
      (mainLoopIter budget se sr rc s e .otherErr).retryCount < budget →
      (mainLoopIter budget se sr rc s e .otherErr).action = .reconnectAfterSleep 15

/-- Counterexample to C5 as stated: an error ending past the 5-minute window
resets the counter to zero — below any positive budget — yet the loop
reconnects immediately, with no 15-second sleep. -/
theorem killed_and_backoff_cex : ¬ claimC5 := by
  intro h
  have h400 := h.2.2.2 1 true false 0 0 400 (by decide)
  exact absurd h400 (by decide)

/-- C5 amended: `Stream` checks its one-shot kill channel first and returns
the killed sentinel if a kill was already pending, without starting the
stream body or touching the `Running` flag; a killed result makes either
loop exit immediately with no retry or backoff; and any other error that
ends within the 5-minute window and leaves the incremented counter below the
retry budget triggers exactly one reconnect after the fixed 15-second sleep
(an error past the window reconnects immediately instead). -/
theorem killed_and_backoff_amended :
    (∀ cOk sOk f r0, streamRun true cOk sOk f r0 = ⟨r0, .killedSentinel, false⟩) ∧
      (∀ budget se sr rc s e,
        (mainLoopIter budget se sr rc s e .killedSentinel).action = .exitLoop) ∧
      (∀ budget rc ls e,
        (standbyLoopIter budget rc ls e .killedSentinel).action = .exitLoop) ∧
      ∀ budget se sr rc s e, e < s + 300 → rc + 1 < budget →
        mainLoopIter budget se sr rc s e .otherErr
          = ⟨rc + 1, .reconnectAfterSleep 15⟩ := by
  refine ⟨fun cOk sOk f r0 => rfl, fun _ _ _ _ _ _ => rfl, fun _ _ _ _ => rfl, ?_⟩
  intro budget se sr rc s e hlt hb
  simp [mainLoopIter, hlt, hb]

/-- Witness for the amended C5 at concrete inputs. -/
theorem killed_and_backoff_amended_witness :
    streamRun true true true .ctxDone false = ⟨false, .killedSentinel, false⟩ ∧
      (mainLoopIter 3 true false 0 0 60 .killedSentinel).action = .exitLoop ∧
      mainLoopIter 3 true false 0 0 60 .otherErr = ⟨1, .reconnectAfterSleep 15⟩ := by
  have h := killed_and_backoff_amended
  exact ⟨h.1 true true .ctxDone false, h.2.1 3 true false 0 0 60,
    h.2.2.2 3 true false 0 0 60 (by decide) (by decide)⟩

/-- The fixed resource-type identifier for secrets (sds.go 26). -/
def typeUrl : String :=
  "type.googleapis.com/envoy.extensions.transport_sockets.tls.v3.Secret"

/-- A `tlsv3.Secret`'s oneof type: only `TlsCertificate` carries chain and
key bytes; any other variant fails the type assertion in `handleCert`
(sds.go 236-240). -/
inductive SecretType where
  | tlsCertificate (chain key : List Nat)
  | otherSecretType
deriving DecidableEq

/-- A decoded `tlsv3.Secret`: its resource name and its oneof type. -/
structure Secret where
  name : String
  typ : SecretType
deriving DecidableEq

/-- An element of a `DiscoveryResponse`'s resource list: an Any-packed
message that either unmarshals to a `Secret` or fails to unmarshal. -/
inductive Resource where
  | packedSecret (s : Secret)
  | malformed
deriving DecidableEq

/-- A `discoveryv3.DiscoveryResponse` as the receiver uses it: version token
plus the resource list. -/
structure DiscoveryResponse where
  versionInfo : String
  resources : List Resource
deriving DecidableEq

/-- The `anypb.UnmarshalTo` decode into a `tlsv3.Secret` (sds.go 147-148). -/
def unmarshalSecret : Resource → Option Secret
  | .packedSecret s => some s
  | .malformed => none

/-- The `respData` record (sds.go 33-36): version token plus decoded secret, as
dispatched to a per-certificate channel. -/
structure RespData where
  version : String
  secret : Secret
deriving DecidableEq

/-- Observable events of the receiving goroutine handling one inbound
response (sds.go 139-164), in program order.  `panicked` models the
index-out-of-range runtime panic of `resp.Resources[0]`, which is not an
error-channel report. -/
inductive ReceiverEvent where
  | signalSwapped
  | dispatchedTo (name : String) (r : RespData)
  | errorReported (msg : String)
  | panicked
deriving DecidableEq

/-- One receipt handled by the receiving goroutine (sds.go 139-164), given
the names registered in the `dispatch` map at stream construction
(sds.go 120-127).  After `stream.Recv` succeeds the goroutine first swaps the
`Received` signal, closing the previous channel (sds.go 144-145); it then
indexes `resp.Resources[0]` with no emptiness check (a panic on an empty
list), unmarshals it (a decode failure is reported on the shared error
channel and ends the receiver), looks the secret's name up in `dispatch` (an
unknown name is reported on the shared error channel and ends the receiver),
and otherwise forwards the version token and secret to the matching
per-certificate channel. -/
def receiverHandle (registered : List String) (resp : DiscoveryResponse) :
    List ReceiverEvent :=
  match resp.resources.head? with
  | none => [.signalSwapped, .panicked]
  | some r0 =>
    match unmarshalSecret r0 with
    | none => [.signalSwapped, .errorReported "can not unmarshal message from srv"]
    | some s =>
      if s.name ∈ registered then
        [.signalSwapped, .dispatchedTo s.name ⟨resp.versionInfo, s⟩]
      else
        [.signalSwapped, .errorReported ("unexcepted cert: " ++ s.name)]

/-- The dispatch performed by one receipt, if any. -/
def dispatchOf (events : List ReceiverEvent) : Option (String × RespData) :=
  events.findSome? fun e =>
    match e with
    | .dispatchedTo name r => some (name, r)
    | _ => none

/-- The `config.ClientCertification` record: the fields the client core reads. -/
structure ClientCertification where
  name : String
  domains : List String
deriving DecidableEq

/-- A `discoveryv3.DiscoveryRequest` as the client builds it: type URL,
version token, resource names. -/
structure DiscoveryRequest where
  reqTypeUrl : String
  versionInfo : String
  resourceNames : List String
deriving DecidableEq

/-- What `handleCert` (sds.go 230-257) does with one dispatched `respData`:
on a `TlsCertificate` secret it pushes the chain and key bytes onto the
certificate's update channel and then forwards an acknowledgment request
carrying the response's version token and that certificate's name as its only
resource name; on any other secret type it reports an error on the shared
error channel and returns. -/
inductive HandlerOutcome where
  | updatedAndAcked (update : CertData) (ack : DiscoveryRequest)
  | typeErrReported
deriving DecidableEq

/-- One `respData` handled by `handleCert` for the certificate `cfg`
(sds.go 235-252). -/
def handleCertStep (cfg : ClientCertification) (rd : RespData) : HandlerOutcome :=
  match rd.secret.typ with
  | .tlsCertificate chain key =>
    .updatedAndAcked ⟨cfg.domains, chain, key⟩ ⟨typeUrl, rd.version, [cfg.name]⟩
  | .otherSecretType => .typeErrReported

/-- The certificate registered under `name` (the `dispatch` map is built from
`c.certs` keyed by `cert.Config.Name`, sds.go 124-127). -/
def findCert (certs : List ClientCertification) (name : String) :
    Option ClientCertification :=
  certs.find? fun c => c.name = name

/-- The acknowledgment requests the stream produces while processing inbound
responses in order: each response the receiver dispatches is handled by the
matching per-certificate handler, which yields one ack; a receiver panic or
an error report on the shared error channel ends the stream and stops the
processing. -/
def streamAcks (certs : List ClientCertification) :
    List DiscoveryResponse → List DiscoveryRequest
  | [] => []
  | resp :: rest =>
    match dispatchOf (receiverHandle (certs.map (fun c => c.name)) resp) with
    | some (name, rd) =>
      match findCert certs name with
      | some cfg =>
        match handleCertStep cfg rd with
        | .updatedAndAcked _ a => a :: streamAcks certs rest
        | .typeErrReported => []
      | none => []
    | none => []

/-- C7: a response whose decoded secret names a certificate not registered at
stream construction makes the receiver report a protocol error on the shared
error channel and stop (the error report is its last event), and dispatches
nothing, so no certificate's update channel receives material from that
response. -/
theorem unknown_name_protocol_error (registered : List String)
    (resp : DiscoveryResponse) (s : Secret)
    (hfirst : resp.resources.head? = some (.packedSecret s))
    (hunk : s.name ∉ registered) :
    receiverHandle registered resp
        = [.signalSwapped, .errorReported ("unexcepted cert: " ++ s.name)] ∧
      ∀ name r, ReceiverEvent.dispatchedTo name r ∉ receiverHandle registered resp := by
  have heq : receiverHandle registered resp
      = [.signalSwapped, .errorReported ("unexcepted cert: " ++ s.name)] := by
    unfold receiverHandle
    rw [hfirst]
    simp [unmarshalSecret, hunk]
  refine ⟨heq, ?_⟩
  intro name r hmem
  rw [heq] at hmem
  simp at hmem

/-- Witness for C7: a response naming the unregistered certificate `"b"`
against a stream registered for `"a"` only reports the protocol error. -/
theorem unknown_name_protocol_error_witness :
    receiverHandle ["a"] ⟨"v1", [.packedSecret ⟨"b", .tlsCertificate [1] [2]⟩]⟩
        = [.signalSwapped, .errorReported "unexcepted cert: b"] ∧
      ∀ name r, ReceiverEvent.dispatchedTo name r
        ∉ receiverHandle ["a"] ⟨"v1", [.packedSecret ⟨"b", .tlsCertificate [1] [2]⟩]⟩ :=
  unknown_name_protocol_error ["a"] ⟨"v1", [.packedSecret ⟨"b", .tlsCertificate [1] [2]⟩]⟩
    ⟨"b", .tlsCertificate [1] [2]⟩ rfl (by decide)

/-- C10: the receiver reaches a dispatch or an error-channel report on every
response only under the precondition that the resource list is non-empty;
on an empty resource list the unchecked `resp.Resources[0]` panics instead of
surfacing a protocol error on the error channel. -/
theorem receiver_empty_resources_panic (registered : List String)
    (resp : DiscoveryResponse) :
    (resp.resources ≠ [] →
      ReceiverEvent.panicked ∉ receiverHandle registered resp ∧
      ((∃ name r, ReceiverEvent.dispatchedTo name r ∈ receiverHandle registered resp) ∨
        ∃ msg, ReceiverEvent.errorReported msg ∈ receiverHandle registered resp)) ∧
      (resp.resources = [] →
        receiverHandle registered resp = [.signalSwapped, .panicked] ∧
        ∀ msg, ReceiverEvent.errorReported msg ∉ receiverHandle registered resp) := by
  constructor
  · intro hne
    match hres : resp.resources with
    | [] => exact absurd hres hne
    | r0 :: rest =>
      unfold receiverHandle
      rw [hres]
      cases r0 with
      | malformed => simp [unmarshalSecret]
      | packedSecret s =>
        by_cases hm : s.name ∈ registered <;> simp [unmarshalSecret, hm]
  · intro hemp
    unfold receiverHandle
    rw [hemp]
    exact ⟨rfl, by simp⟩

/-- Witness for C10: a one-resource response reaches a dispatch without
panicking; an empty-resource response panics. -/
theorem receiver_empty_resources_panic_witness :
    ReceiverEvent.panicked
        ∉ receiverHandle ["a"] ⟨"v", [.packedSecret ⟨"a", .tlsCertificate [1] [2]⟩]⟩ ∧
      receiverHandle ["a"] ⟨"v", []⟩ = [.signalSwapped, .panicked] :=
  ⟨((receiver_empty_resources_panic ["a"]
      ⟨"v", [.packedSecret ⟨"a", .tlsCertificate [1] [2]⟩]⟩).1 (by decide)).1,
    ((receiver_empty_resources_panic ["a"] ⟨"v", []⟩).2 rfl).1⟩

/-- If a receipt dispatched to a per-certificate channel, the response's
first resource was a secret with that name, registered, and the dispatched
data carries the response's version token. -/
theorem dispatchOf_receiverHandle (registered : List String)
    (resp : DiscoveryResponse) (name : String) (rd : RespData)
    (h : dispatchOf (receiverHandle registered resp) = some (name, rd)) :
    ∃ s : Secret, resp.resources.head? = some (.packedSecret s) ∧
      s.name ∈ registered ∧ name = s.name ∧ rd = ⟨resp.versionInfo, s⟩ := by
  unfold receiverHandle at h
  cases hres : resp.resources.head? with
  | none => rw [hres] at h; simp [dispatchOf] at h
  | some r0 =>
    rw [hres] at h
    cases r0 with
    | malformed => simp [unmarshalSecret, dispatchOf] at h
    | packedSecret s =>
      simp only [unmarshalSecret] at h
      by_cases hm : s.name ∈ registered
      · rw [if_pos hm] at h
        simp [dispatchOf, List.findSome?] at h
        exact ⟨s, rfl, hm, h.1.symm, h.2.symm⟩
      · rw [if_neg hm] at h
        simp [dispatchOf, List.findSome?] at h

/-- C8: every acknowledgment the streaming client produces originates from a
received response: it carries, as its only resource name, the name of the
secret embedded in that response, and its version token equals that
response's version token (and its type URL is the fixed secret type URL). -/
theorem ack_from_received_response (certs : List ClientCertification)
    (resps : List DiscoveryResponse) (a : DiscoveryRequest)
    (ha : a ∈ streamAcks certs resps) :
    ∃ resp ∈ resps, ∃ s : Secret,
      resp.resources.head? = some (.packedSecret s) ∧
      a.resourceNames = [s.name] ∧
      a.versionInfo = resp.versionInfo ∧
      a.reqTypeUrl = typeUrl := by
  induction resps with
  | nil => simp [streamAcks] at ha
  | cons resp rest ih =>
    simp only [streamAcks] at ha
    split at ha
    case _ name rd hd =>
      split at ha
      case _ cfg hf =>
        split at ha
        case _ upd ack hh =>
          simp only [List.mem_cons] at ha
          cases ha with
          | inl haeq =>
            obtain ⟨s, hs, _, hname, hrd⟩ :=
              dispatchOf_receiverHandle (certs.map (fun c => c.name)) resp name rd hd
            have hcfg : cfg.name = name := by
              have := List.find?_some hf
              simpa using this
            cases htyp : rd.secret.typ with
            | otherSecretType =>
              unfold handleCertStep at hh
              rw [htyp] at hh
              cases hh
            | tlsCertificate chain key =>
              unfold handleCertStep at hh
              rw [htyp] at hh
              cases hh
              refine ⟨resp, List.mem_cons_self resp rest, s, hs, ?_, ?_, ?_⟩
              · rw [haeq]
                simp [hcfg, hname]
              · rw [haeq]
                simp [hrd]
              · rw [haeq]
          | inr hrest =>
            obtain ⟨r, hr, hof⟩ := ih hrest
            exact ⟨r, List.mem_cons_of_mem resp hr, hof⟩
        case _ hh => simp at ha
      case _ hf => simp at ha
    case _ hd => simp at ha

/-- Witness for C8: the single ack produced by one valid response for
certificate `"certA"` names exactly `"certA"` and echoes version `"v7"`. -/
theorem ack_from_received_response_witness :
    ∃ resp ∈ [(⟨"v7", [.packedSecret ⟨"certA", .tlsCertificate [1] [2]⟩]⟩ :
        DiscoveryResponse)],
      ∃ s : Secret, resp.resources.head? = some (.packedSecret s) ∧
        (⟨typeUrl, "v7", ["certA"]⟩ : DiscoveryRequest).resourceNames = [s.name] ∧
        (⟨typeUrl, "v7", ["certA"]⟩ : DiscoveryRequest).versionInfo = resp.versionInfo ∧
        (⟨typeUrl, "v7", ["certA"]⟩ : DiscoveryRequest).reqTypeUrl = typeUrl :=
  ack_from_received_response [⟨"certA", ["example.com"]⟩]
    [⟨"v7", [.packedSecret ⟨"certA", .tlsCertificate [1] [2]⟩]⟩]
    ⟨typeUrl, "v7", ["certA"]⟩ (by decide)

/-- Joint state of the main-reclaims-from-standby hand-off once the standby
stream has been started (client.go 241-272 together with the standby
client's stream goroutines in sds.go): how many inbound responses the main
receiver has not yet received; whether the `Received` channel captured by the
forwarding goroutine (client.go 269-271) has been closed by the main
receiver's swap; whether the forwarder has already forwarded; whether a value
is buffered in the standby client's `Kill` channel; how many inbound
responses the standby receiver has not yet received; how many responses the
standby receiver dispatched that its handlers have not yet pushed onto
update channels; and whether the standby `Stream` call is still running (has
not yet taken the kill case of its final select). -/
structure HandoffState where
  mainInbox : Nat
  capturedClosed : Bool
  forwarderDone : Bool
  standbyKill : Bool
  standbyInbox : Nat
  standbyPending : Nat
  standbyAlive : Bool
deriving DecidableEq

/-- The concurrent actors of the hand-off, each stepped by the scheduler. -/
inductive HandoffProc where
  | mainRecv
  | forwardKill
  | standbyRecv
  | standbyDispatch
  | standbyObserveKill
deriving DecidableEq

/-- Observable events of the hand-off. -/
inductive HandoffEvent where
  | mainReceived
  | killDelivered
  | standbyReceived
  | standbyUpdate
  | standbyKilled
deriving DecidableEq

/-- One scheduling step of the hand-off; `none` when the chosen actor is
blocked.  `mainRecv`: the main receiver receives a response and swaps the
`Received` signal, closing the previous channel (sds.go 139-145).
`forwardKill`: the forwarding goroutine, unblocked by that close, sends one
value into the standby client's `Kill` channel (client.go 270).
`standbyRecv`: the standby receiver, while its stream is up, receives a
response and dispatches it to a per-certificate channel.  `standbyDispatch`:
a standby per-certificate handler pushes a dispatched response's material
onto a certificate's update channel (sds.go 242-246) — this send is not
guarded by the stream context, so it needs no liveness of the standby
stream.  `standbyObserveKill`: the standby `Stream` call's final select takes
the `Kill` case and returns the killed sentinel (sds.go 224-226), after
which its loop exits and the connection is torn down. -/
def handoffStep (s : HandoffState) :
    HandoffProc → Option (HandoffState × HandoffEvent)
  | .mainRecv =>
    if 0 < s.mainInbox then
      some ({ s with mainInbox := s.mainInbox - 1, capturedClosed := true },
        .mainReceived)
    else none
  | .forwardKill =>
    if s.capturedClosed ∧ ¬ s.forwarderDone then
      some ({ s with forwarderDone := true, standbyKill := true }, .killDelivered)
    else none
  | .standbyRecv =>
    if s.standbyAlive ∧ 0 < s.standbyInbox then
      some ({ s with standbyInbox := s.standbyInbox - 1,
                     standbyPending := s.standbyPending + 1 }, .standbyReceived)
    else none
  | .standbyDispatch =>
    if 0 < s.standbyPending then
      some ({ s with standbyPending := s.standbyPending - 1 }, .standbyUpdate)
    else none
  | .standbyObserveKill =>
    if s.standbyAlive ∧ s.standbyKill then
      some ({ s with standbyAlive := false, standbyKill := false }, .standbyKilled)
    else none

/-- The events produced by running a schedule of actor steps; a blocked
actor contributes nothing. -/
def handoffRun (s : HandoffState) : List HandoffProc → List HandoffEvent
  | [] => []
  | p :: ps =>
    match handoffStep s p with
    | some (s', e) => e :: handoffRun s' ps
    | none => handoffRun s ps

/-- No event `b` occurs after the first occurrence of event `a`. -/
def noEventAfter (a b : HandoffEvent) : List HandoffEvent → Bool
  | [] => true
  | e :: rest =>
    if e = a then rest.all (fun x => x != b) else noEventAfter a b rest

/-- Claim C6 as stated: (1) on every inbound response the receiver swaps the
last-received signal before dispatching; (2) from any hand-off start state
(standby started and running, forwarder armed, kill not yet delivered),
under every schedule, no standby certificate update is driven after the kill
has been delivered to the standby stream. -/
def claimC6 : Prop :=
  (∀ (registered : List String) (resp : DiscoveryResponse),
      ∃ rest, receiverHandle registered resp = .signalSwapped :: rest) ∧
    ∀ (mi si : Nat) (sched : List HandoffProc),
      noEventAfter .killDelivered .standbyUpdate
        (handoffRun ⟨mi, false, false, false, si, 0, true⟩ sched) = true

/-- Counterexample to C6 as stated: the standby receiver receives a response,
the main receiver then fires the last-received signal and the forwarder
delivers the kill — but the standby handler still pushes the already-received
material onto a certificate's update channel before the standby stream's
select observes the kill. -/
theorem handoff_update_after_kill_cex : ¬ claimC6 := by
  intro h
  exact absurd
    (h.2 1 1 [.standbyRecv, .mainRecv, .forwardKill, .standbyDispatch, .standbyObserveKill])
    (by decide)

/-- A hand-off step from a state whose standby stream is down keeps it down
and neither receives on the standby stream nor kills it again. -/
theorem handoffStep_dead (s : HandoffState) (h : s.standbyAlive = false)
    (p : HandoffProc) (s' : HandoffState) (e : HandoffEvent)
    (hstep : handoffStep s p = some (s', e)) :
    s'.standbyAlive = false ∧ e ≠ .standbyReceived := by
  cases p <;> simp only [handoffStep] at hstep <;> split at hstep <;>
    try exact Option.noConfusion hstep
  all_goals
    rw [Option.some.injEq, Prod.mk.injEq] at hstep
    obtain ⟨hs, he⟩ := hstep
    subst hs
    subst he
    simp_all

/-- A hand-off step that emits the standby-killed event leaves the standby
stream down. -/
theorem handoffStep_killed (s : HandoffState) (p : HandoffProc) (s' : HandoffState)
    (hstep : handoffStep s p = some (s', .standbyKilled)) :
    s'.standbyAlive = false := by
  cases p <;> simp only [handoffStep] at hstep <;> split at hstep <;>
    try exact Option.noConfusion hstep
  all_goals
    rw [Option.some.injEq, Prod.mk.injEq] at hstep
    obtain ⟨hs, he⟩ := hstep
    subst hs
    simp_all

/-- In a hand-off state whose standby stream is down, no schedule makes the
standby receive a further response. -/
theorem handoffRun_no_recv_of_dead (sched : List HandoffProc) :
    ∀ s : HandoffState, s.standbyAlive = false →
      ((handoffRun s sched).all fun x => x != .standbyReceived) = true := by
  induction sched with
  | nil => intro s _; rfl
  | cons p ps ih =>
    intro s h
    simp only [handoffRun]
    cases hstep : handoffStep s p with
    | none => exact ih s h
    | some pr =>
      obtain ⟨s', e⟩ := pr
      obtain ⟨ha, hr⟩ := handoffStep_dead s h p s' e hstep
      show ((e :: handoffRun s' ps).all fun x => x != .standbyReceived) = true
      rw [List.all_cons, Bool.and_eq_true]
      exact ⟨bne_iff_ne.mpr hr, ih s' ha⟩

/-- C6 amended: the receiver swaps the last-received signal before decoding
or dispatching on every inbound response; once the main receiver has a
response pending and the forwarder is armed, one main receipt followed by one
forwarder step delivers the kill into the standby's kill channel; and from
the moment the standby stream observes that kill, it receives no further
responses — but material the standby already received may still be pushed
onto a certificate's update channel between the kill's delivery and its
observation. -/
theorem handoff_amended :
    (∀ (registered : List String) (resp : DiscoveryResponse),
        ∃ rest, receiverHandle registered resp = .signalSwapped :: rest) ∧
      (∀ (s : HandoffState) (rest : List HandoffProc),
        0 < s.mainInbox → s.forwarderDone = false →
        handoffRun s (.mainRecv :: .forwardKill :: rest)
          = .mainReceived :: .killDelivered ::
            handoffRun { s with mainInbox := s.mainInbox - 1, capturedClosed := true,
                                forwarderDone := true, standbyKill := true } rest) ∧
      ∀ (sched : List HandoffProc) (s : HandoffState),
        noEventAfter .standbyKilled .standbyReceived (handoffRun s sched) = true := by
  refine ⟨?_, ?_, ?_⟩
  · intro registered resp
    unfold receiverHandle
    cases resp.resources.head? with
    | none => exact ⟨_, rfl⟩
    | some r0 =>
      cases r0 with
      | malformed => exact ⟨_, rfl⟩
      | packedSecret s =>
        refine ⟨if s.name ∈ registered then
            [ReceiverEvent.dispatchedTo s.name ⟨resp.versionInfo, s⟩]
          else [ReceiverEvent.errorReported ("unexcepted cert: " ++ s.name)], ?_⟩
        show (if s.name ∈ registered then
            [ReceiverEvent.signalSwapped,
              ReceiverEvent.dispatchedTo s.name ⟨resp.versionInfo, s⟩]
          else [ReceiverEvent.signalSwapped,
              ReceiverEvent.errorReported ("unexcepted cert: " ++ s.name)])
          = ReceiverEvent.signalSwapped
              :: (if s.name ∈ registered then
                  [ReceiverEvent.dispatchedTo s.name ⟨resp.versionInfo, s⟩]
                else [ReceiverEvent.errorReported ("unexcepted cert: " ++ s.name)])
        split <;> rfl
  · intro s rest hmi hfwd
    have h1 : handoffStep s .mainRecv
        = some ({ s with mainInbox := s.mainInbox - 1, capturedClosed := true },
            .mainReceived) := by
      simp [handoffStep, hmi]
    have h2 : handoffStep
        { s with mainInbox := s.mainInbox - 1, capturedClosed := true } .forwardKill
        = some ({ s with mainInbox := s.mainInbox - 1, capturedClosed := true,
                         forwarderDone := true, standbyKill := true },
            .killDelivered) := by
      simp [handoffStep, hfwd]
    simp only [handoffRun, h1, h2]
  · intro sched
    induction sched with
    | nil => intro s; rfl
    | cons p ps ih =>
      intro s
      simp only [handoffRun]
      cases hstep : handoffStep s p with
      | none => exact ih s
      | some pr =>
        obtain ⟨s', e⟩ := pr
        by_cases he : e = .standbyKilled
        · subst he
          show noEventAfter .standbyKilled .standbyReceived
            (.standbyKilled :: handoffRun s' ps) = true
          rw [noEventAfter, if_pos rfl]
          exact handoffRun_no_recv_of_dead ps s' (handoffStep_killed s p s' hstep)
        · show noEventAfter .standbyKilled .standbyReceived (e :: handoffRun s' ps) = true
          rw [noEventAfter, if_neg he]
          exact ih s'

/-- Witness for the amended C6 at a concrete response, hand-off state and
schedule. -/
theorem handoff_amended_witness :
    (∃ rest, receiverHandle ["a"] ⟨"v", [.packedSecret ⟨"a", .tlsCertificate [1] [2]⟩]⟩
        = .signalSwapped :: rest) ∧
      handoffRun ⟨1, false, false, false, 1, 0, true⟩
          [.mainRecv, .forwardKill, .standbyObserveKill, .standbyRecv]
        = [.mainReceived, .killDelivered, .standbyKilled] ∧
      noEventAfter .standbyKilled .standbyReceived
          (handoffRun ⟨1, false, false, false, 1, 0, true⟩
            [.mainRecv, .forwardKill, .standbyObserveKill, .standbyRecv]) = true := by
  have h := handoff_amended
  refine ⟨h.1 ["a"] ⟨"v", [.packedSecret ⟨"a", .tlsCertificate [1] [2]⟩]⟩, ?_, ?_⟩
  · have h2 := h.2.1 ⟨1, false, false, false, 1, 0, true⟩
      [.standbyObserveKill, .standbyRecv] (by decide) rfl
    rw [h2]
    decide
  · exact h.2.2 [.mainRecv, .forwardKill, .standbyObserveKill, .standbyRecv]
      ⟨1, false, false, false, 1, 0, true⟩
end Certdx
